import Mathlib

/-!
Verification of the meshMonitor telemetry persistence engine
(`src/meshviewer/data_persistence.py`, `src/meshviewer/interface.py`).

Timestamps and uptimes are modelled as rationals (epoch seconds and hours
respectively); Python floats become `ℚ`, dictionaries become association
lists or functions with the source's defaults, and the two durable files
(`node_data.csv`, `node_data.json`) become in-memory lists.  A CSV row read
back from disk carries an `Option ℚ` timestamp: `none` models a row whose
textual timestamp `pd.to_datetime` cannot parse.
-/

namespace MeshMonitor

/-- The `deviceMetrics` block of a node record; every field is optional,
matching `dict.get` with a default in the source. -/
structure DeviceMetrics where
  uptimeSeconds : Option ℚ
  batteryLevel : Option ℤ
  voltage : Option ℚ
  channelUtilization : Option ℚ
  deriving DecidableEq

/-- The `user` block of a node record. -/
structure UserInfo where
  shortName : Option String
  longName : Option String
  hwModel : Option String
  deriving DecidableEq

/-- A node record as delivered by the snapshot provider.  `deviceMetrics`,
`user` and `lastHeard` model presence/absence of the corresponding keys;
`isFavorite` models `'isFavorite' in node`. -/
structure Node where
  deviceMetrics : Option DeviceMetrics
  user : Option UserInfo
  lastHeard : Option ℤ
  isFavorite : Bool
  deriving DecidableEq

/-- The non-timestamp fields of one CSV row of `node_data.csv`, in the order
written by `save_nodes_data`. -/
structure CsvFields where
  node_id : String
  short_name : String
  long_name : String
  hw_model : String
  battery_level : ℤ
  voltage : ℚ
  is_charging : Bool
  uptime_hours : ℚ
  channel_utilization : ℚ
  last_heard : ℤ
  is_favorite : Bool
  deriving DecidableEq

/-- A fully parsed CSV row: timestamp (epoch seconds) plus the data fields. -/
structure Row where
  timestamp : ℚ
  fields : CsvFields
  deriving DecidableEq

/-- A CSV row as it sits on disk: the timestamp is `none` when the stored
text does not parse as a datetime (a malformed log entry). -/
structure RawRow where
  timestamp : Option ℚ
  fields : CsvFields
  deriving DecidableEq

/-- Serialisation of a well-formed row back to disk form. -/
def Row.raw (r : Row) : RawRow :=
  { timestamp := some r.timestamp, fields := r.fields }

/-- `pd.to_datetime` on one stored timestamp: succeeds iff the text parses. -/
def parseRow (r : RawRow) : Option Row :=
  r.timestamp.map (fun t => { timestamp := t, fields := r.fields })

/-- `pd.read_csv` followed by `pd.to_datetime` over the whole timestamp
column: the conversion raises (so the surrounding `try` fails) as soon as any
single row is malformed, hence `none` if any row fails to parse. -/
def parseLog : List RawRow → Option (List Row)
  | [] => some []
  | r :: rest =>
    match parseRow r, parseLog rest with
    | some row, some rows => some (row :: rows)
    | _, _ => none

/-- One record of the JSON batch stream (per accepted node). -/
structure JsonNode where
  shortName : String
  longName : String
  hwModel : String
  batteryLevel : ℤ
  voltage : ℚ
  isCharging : Bool
  uptimeHours : ℚ
  channelUtilization : ℚ
  lastHeard : ℤ
  isFavorite : Bool
  deriving DecidableEq

/-- One line of `node_data.json`: the batch record written by a single
(non-throttled) `save_nodes_data` call. -/
structure JsonBatch where
  timestamp : ℚ
  nodes : List (String × JsonNode)
  deriving DecidableEq

/-- The persistent state of a `DataPersistence` object: the two durable
files plus the in-memory `_previous_uptimes` baseline (a Python dict read
with `.get(node_id, 0)`, modelled as a total function defaulting to `0`).
A `none` entry in `jsonLog` models a line that `json.loads` rejects. -/
structure PState where
  csvLog : List RawRow
  jsonLog : List (Option JsonBatch)
  previousUptimes : String → ℚ

/-- The outcome of one `save_nodes_data` call.  `retVal` is the Python
return value (the function is annotated `-> None` and every `return` in it
is bare, so it is always `none`); `loggedCount` is the count in the final
`"Saved data for ... nodes"` log line, absent when the call was throttled. -/
structure SaveResult where
  state : PState
  retVal : Option ℕ
  loggedCount : Option ℕ

/-- Maximum of the timestamp column (`existing_df['timestamp'].max()`). -/
def latestTimestamp (rows : List Row) : Option ℚ :=
  (rows.map Row.timestamp).foldl
    (fun acc t =>
      match acc with
      | none => some t
      | some m => some (max m t)) none

/-- The global throttle check at the top of `save_nodes_data`: parse the
existing log (a parse failure is caught and the check is skipped) and skip
the save iff the log is non-empty and `now` is less than 240 seconds after
the latest stored timestamp. -/
def throttleSkip (log : List RawRow) (now : ℚ) : Bool :=
  match parseLog log with
  | none => false
  | some rows =>
    match latestTimestamp rows with
    | none => false
    | some m => decide (now - m < 240)

/-- Build the CSV data fields for one accepted node, with the source's
defaults: metrics default to `0`, user strings to `"Unknown"`. -/
def buildFields (node_id : String) (n : Node) (dm : DeviceMetrics) : CsvFields :=
  let battery_level := dm.batteryLevel.getD 0
  { node_id := node_id
    short_name := ((n.user.bind UserInfo.shortName).getD "Unknown")
    long_name := ((n.user.bind UserInfo.longName).getD "Unknown")
    hw_model := ((n.user.bind UserInfo.hwModel).getD "Unknown")
    battery_level := battery_level
    voltage := dm.voltage.getD 0
    is_charging := battery_level == 101
    uptime_hours := dm.uptimeSeconds.getD 0 / 3600
    channel_utilization := dm.channelUtilization.getD 0
    last_heard := n.lastHeard.getD 0
    is_favorite := n.isFavorite }

/-- The per-node selection loop of `save_nodes_data`: skip nodes without a
`deviceMetrics` block, compute `uptime_hours = uptimeSeconds / 3600`, and
skip the node when `|uptime_hours - previous| < 0.01`; otherwise emit the
CSV row stamped with the call's timestamp. -/
def csvRowsFor (prev : String → ℚ) (nodes : List (String × Node)) (now : ℚ) :
    List Row :=
  nodes.filterMap (fun p =>
    match p.2.deviceMetrics with
    | none => none
    | some dm =>
      let uptime_hours := dm.uptimeSeconds.getD 0 / 3600
      if |uptime_hours - prev p.1| < 1/100 then none
      else some { timestamp := now, fields := buildFields p.1 p.2 dm })

/-- The JSON-side record for one accepted node (same loop, same data). -/
def buildJsonNode (n : Node) (dm : DeviceMetrics) : JsonNode :=
  let battery_level := dm.batteryLevel.getD 0
  { shortName := ((n.user.bind UserInfo.shortName).getD "Unknown")
    longName := ((n.user.bind UserInfo.longName).getD "Unknown")
    hwModel := ((n.user.bind UserInfo.hwModel).getD "Unknown")
    batteryLevel := battery_level
    voltage := dm.voltage.getD 0
    isCharging := battery_level == 101
    uptimeHours := dm.uptimeSeconds.getD 0 / 3600
    channelUtilization := dm.channelUtilization.getD 0
    lastHeard := n.lastHeard.getD 0
    isFavorite := n.isFavorite }

/-- The `json_data['nodes']` mapping: one entry per accepted node, with the
same skip conditions as the CSV loop. -/
def jsonNodesFor (prev : String → ℚ) (nodes : List (String × Node)) :
    List (String × JsonNode) :=
  nodes.filterMap (fun p =>
    match p.2.deviceMetrics with
    | none => none
    | some dm =>
      let uptime_hours := dm.uptimeSeconds.getD 0 / 3600
      if |uptime_hours - prev p.1| < 1/100 then none
      else some (p.1, buildJsonNode p.2 dm))

/-- The final loop of `save_nodes_data`: set `_previous_uptimes[node_id]` to
the new uptime for every node of the snapshot that has a `deviceMetrics`
block (accepted or not). -/
def updateUptimes (prev : String → ℚ) (nodes : List (String × Node)) :
    String → ℚ :=
  nodes.foldl
    (fun acc p =>
      match p.2.deviceMetrics with
      | none => acc
      | some dm => Function.update acc p.1 (dm.uptimeSeconds.getD 0 / 3600))
    prev

/-- `DataPersistence.save_nodes_data`: global 240-second throttle, per-node
uptime-change gate, append to both durable files, then update the uptime
baseline.  `now` is `int(time.time())` in epoch seconds. -/
def save_nodes_data (st : PState) (nodes_data : List (String × Node))
    (now : ℚ) : SaveResult :=
  if throttleSkip st.csvLog now then
    { state := st, retVal := none, loggedCount := none }
  else
    let csv_rows := csvRowsFor st.previousUptimes nodes_data now
    let batch : JsonBatch :=
      { timestamp := now, nodes := jsonNodesFor st.previousUptimes nodes_data }
    { state :=
        { csvLog := st.csvLog ++ csv_rows.map Row.raw
          jsonLog := st.jsonLog ++ [some batch]
          previousUptimes := updateUptimes st.previousUptimes nodes_data }
      retVal := none
      loggedCount := some csv_rows.length }

/-- Ordering of rows by timestamp, used to model `df.sort_values('timestamp')`. -/
def rowLE (a b : Row) : Prop := a.timestamp ≤ b.timestamp

instance : DecidableRel rowLE := fun a b =>
  inferInstanceAs (Decidable (a.timestamp ≤ b.timestamp))

instance : IsTotal Row rowLE := ⟨fun a b => le_total a.timestamp b.timestamp⟩

instance : IsTrans Row rowLE := ⟨fun _ _ _ h h' => le_trans h h'⟩

/-- `DataPersistence.get_battery_history(days)`: read and parse the CSV log
(any parse failure is caught and yields an empty frame), keep rows with
`timestamp ≥ now - days` (a `timedelta` of `days` days, i.e. `days * 86400`
seconds), and sort ascending by timestamp. -/
def get_battery_history (log : List RawRow) (days : ℚ) (now : ℚ) : List Row :=
  match parseLog log with
  | none => []
  | some rows =>
    let cutoff := now - days * 86400
    List.insertionSort rowLE (rows.filter (fun r => decide (cutoff ≤ r.timestamp)))

/-- `DataPersistence.get_node_battery_history(node_id, days)`: the windowed
history further filtered to one node.  No deduplication is performed. -/
def get_node_battery_history (log : List RawRow) (node_id : String)
    (days : ℚ) (now : ℚ) : List Row :=
  let df := get_battery_history log days now
  if df.isEmpty then df
  else df.filter (fun r => r.fields.node_id == node_id)

/-- `DataPersistence.get_latest_data`: return the parse of the last line of
the JSON log; a missing file/empty file or a `json.loads` failure (caught)
yields `None`. -/
def get_latest_data (lines : List (Option JsonBatch)) : Option JsonBatch :=
  match lines.getLast? with
  | none => none
  | some none => none
  | some (some b) => some b

/-- `DataPersistence.cleanup_old_data(days_to_keep)`: load the history of
the last `days_to_keep * 2` days, return untouched if that load is empty,
otherwise keep rows with `timestamp ≥ now - days_to_keep` and replace the
CSV file with the kept rows. -/
def cleanup_old_data (log : List RawRow) (days_to_keep : ℚ) (now : ℚ) :
    List RawRow :=
  let df := get_battery_history log (days_to_keep * 2) now
  if df.isEmpty then log
  else
    let cutoff := now - days_to_keep * 86400
    ((df.filter (fun r => decide (cutoff ≤ r.timestamp))).map Row.raw)

/-- Classification of one node's `lastHeard` observation by the freshness
cache (spec names: `Advanced` / `FirstSeen` / `Unchanged`). -/
inductive HeardEvent where
  | Advanced
  | FirstSeen
  | Unchanged
  deriving DecidableEq

/-- The per-node body of `MeshInterface.detect_last_heard_changes`: compare
the observed `lastHeard` with `last_heard_cache.get(node_id)`; a missing
entry is first-seen (cached silently), a differing entry is a reported
change; in both cases the cache entry is set to the new value. -/
def observe_last_heard (cache : String → Option ℤ) (node_id : String)
    (current : ℤ) : HeardEvent × (String → Option ℤ) :=
  match cache node_id with
  | none => (HeardEvent.FirstSeen, Function.update cache node_id (some current))
  | some c =>
    if c ≠ current then
      (HeardEvent.Advanced, Function.update cache node_id (some current))
    else (HeardEvent.Unchanged, cache)

/-- `MeshInterface.detect_last_heard_changes`: fold the per-node observation
over every node of the snapshot that carries a `lastHeard` key, collecting
the classification of each observed node. -/
def detect_last_heard_changes (cache : String → Option ℤ)
    (nodes : List (String × Node)) :
    (String → Option ℤ) × List (String × HeardEvent) :=
  nodes.foldl
    (fun acc p =>
      match p.2.lastHeard with
      | none => acc
      | some lh =>
        let step := observe_last_heard acc.1 p.1 lh
        (step.2, acc.2 ++ [(p.1, step.1)]))
    (cache, [])

/-! ### Concrete fixtures used by witnesses and counterexamples -/

/-- A metrics block carrying only an uptime, in seconds. -/
def dmUp (s : ℚ) : DeviceMetrics :=
  { uptimeSeconds := some s, batteryLevel := none, voltage := none,
    channelUtilization := none }

/-- A node whose metrics block carries only an uptime, in seconds. -/
def nodeUp (s : ℚ) : Node :=
  { deviceMetrics := some (dmUp s), user := none, lastHeard := none,
    isFavorite := false }

/-- A node with a metrics block that has no fields at all. -/
def nodeNoFields : Node :=
  { deviceMetrics := some
      { uptimeSeconds := none, batteryLevel := none, voltage := none,
        channelUtilization := none },
    user := none, lastHeard := none, isFavorite := false }

/-- A parsed row for node `id` at time `ts` with battery level `b`. -/
def sampleRow (id : String) (ts : ℚ) (b : ℤ) : Row :=
  { timestamp := ts
    fields := buildFields id
      { deviceMetrics := some
          { uptimeSeconds := some 3600, batteryLevel := some b, voltage := none,
            channelUtilization := none },
        user := none, lastHeard := none, isFavorite := false }
      { uptimeSeconds := some 3600, batteryLevel := some b, voltage := none,
        channelUtilization := none } }

/-- A fresh persistence state: empty files, empty baseline. -/
def emptyState : PState :=
  { csvLog := [], jsonLog := [], previousUptimes := fun _ => 0 }

/-- A baseline that has persisted uptime `5` hours for node `"!a"`. -/
def baselineA : String → ℚ := fun id => if id = "!a" then 5 else 0

/-- A state whose log holds one row for `"!a"` at time `0` and whose
baseline records `5` hours for `"!a"`. -/
def stateA : PState :=
  { csvLog := [(sampleRow "!a" 0 10).raw], jsonLog := [],
    previousUptimes := baselineA }

/-! ### Helper lemmas -/

theorem parseRow_raw (r : Row) : parseRow r.raw = some r := rfl

theorem parseLog_map_raw (l : List Row) : parseLog (l.map Row.raw) = some l := by
  induction l with
  | nil => rfl
  | cons r rest ih => simp [parseLog, parseRow_raw, ih]

theorem get_battery_history_parsed (l : List Row) (days now : ℚ) :
    get_battery_history (l.map Row.raw) days now =
      List.insertionSort rowLE
        (l.filter (fun r => decide (now - days * 86400 ≤ r.timestamp))) := by
  simp [get_battery_history, parseLog_map_raw]

theorem csvRowsFor_cons_none (prev : String → ℚ) (p : String × Node)
    (rest : List (String × Node)) (now : ℚ)
    (hdm : p.2.deviceMetrics = none) :
    csvRowsFor prev (p :: rest) now = csvRowsFor prev rest now := by
  simp [csvRowsFor, List.filterMap_cons, hdm]

theorem csvRowsFor_cons_some (prev : String → ℚ) (p : String × Node)
    (rest : List (String × Node)) (now : ℚ) (dm : DeviceMetrics)
    (hdm : p.2.deviceMetrics = some dm) :
    csvRowsFor prev (p :: rest) now =
      (if |dm.uptimeSeconds.getD 0 / 3600 - prev p.1| < 1/100 then []
        else [{ timestamp := now, fields := buildFields p.1 p.2 dm }]) ++
        csvRowsFor prev rest now := by
  simp only [csvRowsFor, List.filterMap_cons, hdm]
  by_cases hs : |dm.uptimeSeconds.getD 0 / 3600 - prev p.1| < 1/100
  · rw [if_pos hs, if_pos hs]
    rfl
  · rw [if_neg hs, if_neg hs]
    rfl

theorem csvRowsFor_countP_eq_zero (prev : String → ℚ)
    (nodes : List (String × Node)) (now : ℚ) (id : String)
    (h : id ∉ nodes.map Prod.fst) :
    (csvRowsFor prev nodes now).countP (fun r => r.fields.node_id == id) = 0 := by
  induction nodes with
  | nil => rfl
  | cons p rest ih =>
    have hid : p.1 ≠ id := fun hc => h (by simp [hc])
    have hrest : id ∉ rest.map Prod.fst := fun hc => h (by simp [hc])
    cases hdm : p.2.deviceMetrics with
    | none => rw [csvRowsFor_cons_none prev p rest now hdm, ih hrest]
    | some dm =>
      rw [csvRowsFor_cons_some prev p rest now dm hdm, List.countP_append, ih hrest]
      by_cases hs : |dm.uptimeSeconds.getD 0 / 3600 - prev p.1| < 1/100
      · rw [if_pos hs]
        rfl
      · rw [if_neg hs]
        simp [List.countP_cons, buildFields, hid]

theorem countP_csvRowsFor (prev : String → ℚ) (nodes : List (String × Node))
    (now : ℚ) (id : String) (n : Node) (dm : DeviceMetrics)
    (hnd : (nodes.map Prod.fst).Nodup)
    (hmem : (id, n) ∈ nodes) (hdm : n.deviceMetrics = some dm) :
    (csvRowsFor prev nodes now).countP (fun r => r.fields.node_id == id) =
      if 1/100 ≤ |dm.uptimeSeconds.getD 0 / 3600 - prev id| then 1 else 0 := by
  induction nodes with
  | nil => cases hmem
  | cons p rest ih =>
    rcases List.mem_cons.mp hmem with heq | hmemr
    · have hp1 : p.1 = id := by rw [← heq]
      have hdm' : p.2.deviceMetrics = some dm := by rw [← heq]; exact hdm
      have hrest0 : id ∉ rest.map Prod.fst := by
        have hh := (List.nodup_cons.mp hnd).1
        rwa [hp1] at hh
      rw [csvRowsFor_cons_some prev p rest now dm hdm', List.countP_append,
        csvRowsFor_countP_eq_zero prev rest now id hrest0, Nat.add_zero, hp1]
      by_cases hs : |dm.uptimeSeconds.getD 0 / 3600 - prev id| < 1/100
      · rw [if_pos hs, if_neg (not_le.mpr hs)]
        rfl
      · rw [if_neg hs, if_pos (not_lt.mp hs)]
        simp [List.countP_cons, buildFields]
    · have hidmem : id ∈ rest.map Prod.fst :=
        List.mem_map.mpr ⟨(id, n), hmemr, rfl⟩
      have hp1 : p.1 ≠ id := fun hc => (List.nodup_cons.mp hnd).1 (hc ▸ hidmem)
      have hihr := ih (List.nodup_cons.mp hnd).2 hmemr
      cases hdm2 : p.2.deviceMetrics with
      | none => rw [csvRowsFor_cons_none prev p rest now hdm2, hihr]
      | some dm2 =>
        rw [csvRowsFor_cons_some prev p rest now dm2 hdm2, List.countP_append, hihr]
        by_cases hs : |dm2.uptimeSeconds.getD 0 / 3600 - prev p.1| < 1/100
        · rw [if_pos hs]
          simp
        · rw [if_neg hs]
          simp [List.countP_cons, buildFields, hp1]

theorem countP_map_raw (rows : List Row) (id : String) :
    (rows.map Row.raw).countP (fun s => s.fields.node_id == id) =
      rows.countP (fun r => r.fields.node_id == id) :=
  (List.countP_map _ _ _).trans rfl

/-! ### Claim theorems -/

/-- C1: the claim states that the baseline (`_previous_uptimes`) is unchanged
for every node whose sample is rejected by the uptime-delta check.  The code
violates this: at this concrete input node `"!a"`'s uptime moved from the
stored 5 h to 5.005 h, the delta 0.005 < 0.01 rejects the sample and no row
is appended, yet `save_nodes_data` still advances the stored baseline for
`"!a"` (the final update loop runs over all metrics-bearing nodes, not only
the saved ones, contradicting its own comment). -/
theorem c1_rejected_node_baseline_advances :
    (save_nodes_data stateA [("!a", nodeUp 18018)] 1000).state.csvLog = stateA.csvLog ∧
      (save_nodes_data stateA [("!a", nodeUp 18018)] 1000).state.previousUptimes "!a" ≠
        baselineA "!a" := by
  with_unfolding_all decide

/-- C3: when the durable log is non-empty and `now` is less than 240 seconds
after the maximum timestamp already stored, `save_nodes_data` writes nothing
to either durable representation and returns without error: the whole state
is returned unchanged. -/
theorem c3_throttle_writes_nothing (st : PState) (l : List Row)
    (nd : List (String × Node)) (now m : ℚ)
    (hlog : st.csvLog = l.map Row.raw)
    (hmax : latestTimestamp l = some m)
    (hlt : now - m < 240) :
    save_nodes_data st nd now =
      { state := st, retVal := none, loggedCount := none } := by
  have hth : throttleSkip st.csvLog now = true := by
    rw [hlog]
    simp only [throttleSkip, parseLog_map_raw, hmax]
    exact decide_eq_true hlt
  simp [save_nodes_data, hth]

/-- Witness for C3: a log whose only row is at t = 900 throttles a save at
t = 1000 (100 s < 240 s), leaving the state untouched. -/
theorem c3_throttle_writes_nothing_witness :
    save_nodes_data
        { csvLog := [sampleRow "!a" 900 10].map Row.raw, jsonLog := [],
          previousUptimes := fun _ => 0 }
        [("!b", nodeUp 7200)] 1000 =
      { state :=
          { csvLog := [sampleRow "!a" 900 10].map Row.raw, jsonLog := [],
            previousUptimes := fun _ => 0 },
        retVal := none, loggedCount := none } :=
  c3_throttle_writes_nothing _ [sampleRow "!a" 900 10] _ 1000 900 rfl rfl
    (by norm_num)

/-- C9: the freshness-cache observation reports `Advanced` exactly when a
cached value exists and strictly differs from the newly observed
`last_heard`, reports `FirstSeen` exactly when no prior entry exists, and in
both of those cases stores the new `last_heard` in the cache. -/
theorem c9_observe_classification (cache : String → Option ℤ) (id : String)
    (cur : ℤ) :
    ((observe_last_heard cache id cur).1 = HeardEvent.Advanced ↔
        ∃ c, cache id = some c ∧ c ≠ cur) ∧
      ((observe_last_heard cache id cur).1 = HeardEvent.FirstSeen ↔
        cache id = none) ∧
      ((observe_last_heard cache id cur).1 ≠ HeardEvent.Unchanged →
        (observe_last_heard cache id cur).2 id = some cur) := by
  unfold observe_last_heard
  cases h : cache id with
  | none => simp [Function.update_same]
  | some c =>
    by_cases hc : c = cur
    · subst hc
      simp
    · simp [hc, Function.update_same]

/-- Witness for C9: a cache holding 5 for `"!a"` observes 7: the change is
reported as `Advanced` and the cache entry becomes 7. -/
theorem c9_observe_classification_witness :
    (observe_last_heard (fun id => if id = "!a" then some 5 else none) "!a" 7).1 =
        HeardEvent.Advanced ∧
      (observe_last_heard (fun id => if id = "!a" then some 5 else none) "!a" 7).2
          "!a" = some 7 := by
  have h := c9_observe_classification (fun id => if id = "!a" then some 5 else none) "!a" 7
  have h1 := h.1.mpr ⟨5, rfl, by decide⟩
  exact ⟨h1, h.2.2 (by rw [h1]; decide)⟩

/-- C6 counterexample: the claim states that `save` returns the number of
samples written.  At this input one row is written, but the Python function
is annotated `-> None` and both its `return` statements are bare, so the
call returns `None`, not 1. -/
theorem c6_save_returns_none_not_count :
    (save_nodes_data emptyState [("!a", nodeUp 7200)] 1000).state.csvLog.length = 1 ∧
      (save_nodes_data emptyState [("!a", nodeUp 7200)] 1000).retVal ≠ some 1 := by
  with_unfolding_all decide

/-- C6 amended: `save_nodes_data` always returns `None`; the number of
samples written in a non-throttled call is reported only through the final
log message, whose count equals the number of rows appended to the durable
log in that call. -/
theorem c6_save_logs_count_of_rows_written (st : PState)
    (nd : List (String × Node)) (now : ℚ)
    (hth : throttleSkip st.csvLog now = false) :
    (save_nodes_data st nd now).retVal = none ∧
      (save_nodes_data st nd now).loggedCount =
        some ((save_nodes_data st nd now).state.csvLog.length -
          st.csvLog.length) := by
  simp [save_nodes_data, hth]

/-- Witness for C6 amended: a non-throttled save on an empty log. -/
theorem c6_save_logs_count_witness :
    (save_nodes_data emptyState [("!a", nodeUp 7200)] 1000).retVal = none ∧
      (save_nodes_data emptyState [("!a", nodeUp 7200)] 1000).loggedCount =
        some ((save_nodes_data emptyState [("!a", nodeUp 7200)] 1000).state.csvLog.length -
          emptyState.csvLog.length) :=
  c6_save_logs_count_of_rows_written emptyState [("!a", nodeUp 7200)] 1000 rfl

/-- A raw CSV row whose stored timestamp text does not parse. -/
def malformedRaw : RawRow :=
  { timestamp := none, fields := (sampleRow "!b" 0 0).fields }

/-- C7 counterexample: the claim states that the Query Engine skips only the
offending rows and still returns well-formed rows.  Here the log holds one
well-formed in-window row and one malformed row; `pd.to_datetime` fails on
the whole column, the exception handler returns an empty frame, and the
well-formed row is dropped too. -/
theorem c7_malformed_row_drops_wellformed_rows :
    get_battery_history [(sampleRow "!a" 999000 10).raw, malformedRaw] 7 1000000 = [] ∧
      (1000000 : ℚ) - 7 * 86400 ≤ (sampleRow "!a" 999000 10).timestamp := by
  constructor
  · rfl
  · norm_num [sampleRow]

/-- C7 amended: when any row of the CSV log fails to parse, the Query Engine
returns an empty result (dropping well-formed rows as well, not a partial
result) and the Retention Manager leaves the log untouched; when the last
JSON line fails to parse, `get_latest_data` returns `None`.  No exception
propagates to the caller in any of these cases. -/
theorem c7_parse_failure_degrades_without_raising (log : List RawRow)
    (days k now : ℚ) (lines : List (Option JsonBatch))
    (hbad : parseLog log = none) (hlast : lines.getLast? = some none) :
    get_battery_history log days now = [] ∧
      cleanup_old_data log k now = log ∧
      get_latest_data lines = none := by
  refine ⟨?_, ?_, ?_⟩
  · simp [get_battery_history, hbad]
  · simp [cleanup_old_data, get_battery_history, hbad]
  · simp [get_latest_data, hlast]

/-- Witness for C7 amended: a log holding only a malformed row, and a JSON
stream whose last line is malformed. -/
theorem c7_parse_failure_witness :
    get_battery_history [malformedRaw] 7 1000000 = [] ∧
      cleanup_old_data [malformedRaw] 30 1000000 = [malformedRaw] ∧
      get_latest_data [none] = none :=
  c7_parse_failure_degrades_without_raising [malformedRaw] 7 30 1000000 [none]
    rfl rfl

/-- C5 counterexample: the claim states that `history(w)` drops every row
older than `now − w` hours.  The code interprets the parameter as days: with
`w = 1` a row 12 hours old (timestamp 56800 at now = 100000) survives the
filter even though it is far older than `now − 1` hour. -/
theorem c5_window_is_days_not_hours :
    (get_battery_history [(sampleRow "!a" 56800 10).raw] 1 100000).map
        Row.timestamp = [56800] ∧
      (56800 : ℚ) < 100000 - 1 * 3600 := by
  constructor
  · have h : [(sampleRow "!a" 56800 10).raw] = [sampleRow "!a" 56800 10].map Row.raw := rfl
    rw [h, get_battery_history_parsed]
    norm_num [List.filter_cons, sampleRow]
  · norm_num

/-- C5 amended: `get_battery_history` treats its window parameter as a
continuous quantity of days: no returned row has a timestamp earlier than
`now − w` days (`w * 86400` seconds), and the result is sorted ascending by
timestamp. -/
theorem c5_history_window_days_sorted (log : List RawRow) (days now : ℚ) :
    (∀ r ∈ get_battery_history log days now,
        now - days * 86400 ≤ r.timestamp) ∧
      List.Sorted rowLE (get_battery_history log days now) := by
  unfold get_battery_history
  cases h : parseLog log with
  | none => simp
  | some rows =>
    constructor
    · intro r hr
      have h1 := (List.mem_insertionSort rowLE).mp hr
      have h2 := List.of_mem_filter h1
      simpa using h2
    · exact List.sorted_insertionSort rowLE _

/-- Witness for C5 amended: the single returned row at t = 999000 is inside
the 7-day window ending at t = 1000000, and the result is sorted. -/
theorem c5_history_window_witness :
    (1000000 : ℚ) - 7 * 86400 ≤ (sampleRow "!a" 999000 10).timestamp ∧
      List.Sorted rowLE
        (get_battery_history [(sampleRow "!a" 999000 10).raw] 7 1000000) := by
  refine ⟨(c5_history_window_days_sorted [(sampleRow "!a" 999000 10).raw] 7
      1000000).1 (sampleRow "!a" 999000 10) ?_,
    (c5_history_window_days_sorted [(sampleRow "!a" 999000 10).raw] 7 1000000).2⟩
  have h : [(sampleRow "!a" 999000 10).raw] = [sampleRow "!a" 999000 10].map Row.raw := rfl
  rw [h, get_battery_history_parsed]
  norm_num [List.filter_cons, sampleRow]

/-- C2 counterexample: the claim states that the node-filtered history never
returns two rows with the same timestamp.  The code performs no
deduplication: a log holding two rows for node `"!a"` at the same timestamp
999000 yields both rows. -/
theorem c2_duplicate_timestamps_returned :
    (get_node_battery_history
        [(sampleRow "!a" 999000 10).raw, (sampleRow "!a" 999000 20).raw]
        "!a" 7 1000000).map Row.timestamp = [999000, 999000] := by
  have h : [(sampleRow "!a" 999000 10).raw, (sampleRow "!a" 999000 20).raw]
      = [sampleRow "!a" 999000 10, sampleRow "!a" 999000 20].map Row.raw := rfl
  rw [get_node_battery_history, h, get_battery_history_parsed]
  norm_num [List.filter_cons, sampleRow, List.insertionSort, List.orderedInsert,
    rowLE, buildFields]

/-- C2 amended: the node-filtered history performs no timestamp
deduplication: it returns exactly the rows of the log that belong to the
node and lie in the window (duplicate timestamps included, as a permutation
of the filtered log), sorted ascending by timestamp. -/
theorem c2_node_history_keeps_duplicates (log : List RawRow) (rows : List Row)
    (id : String) (days now : ℚ) (hparse : parseLog log = some rows) :
    (get_node_battery_history log id days now).Perm
        (rows.filter (fun r =>
          (r.fields.node_id == id) && decide (now - days * 86400 ≤ r.timestamp))) ∧
      List.Sorted rowLE (get_node_battery_history log id days now) := by
  have hg : get_battery_history log days now =
      List.insertionSort rowLE
        (rows.filter (fun r => decide (now - days * 86400 ≤ r.timestamp))) := by
    simp [get_battery_history, hparse]
  unfold get_node_battery_history
  rw [hg]
  by_cases he : (List.insertionSort rowLE
      (rows.filter (fun r => decide (now - days * 86400 ≤ r.timestamp)))).isEmpty
  · have hnil : List.insertionSort rowLE
        (rows.filter (fun r => decide (now - days * 86400 ≤ r.timestamp))) = [] :=
      List.isEmpty_iff.mp he
    have hfq : rows.filter (fun r => decide (now - days * 86400 ≤ r.timestamp)) = [] := by
      have hp := List.perm_insertionSort rowLE
        (rows.filter (fun r => decide (now - days * 86400 ≤ r.timestamp)))
      rw [hnil] at hp
      exact (hp.symm).eq_nil
    rw [← List.filter_filter, hfq]
    simp [he, hnil]
  · simp only [he, Bool.false_eq_true, if_false]
    constructor
    · have hp := (List.perm_insertionSort rowLE
        (rows.filter (fun r => decide (now - days * 86400 ≤ r.timestamp)))).filter
          (fun r => r.fields.node_id == id)
      rwa [List.filter_filter] at hp
    · exact List.Pairwise.sublist (List.filter_sublist _)
        (List.sorted_insertionSort rowLE _)

/-- Witness for C2 amended: a one-row log for `"!a"`. -/
theorem c2_node_history_witness :
    (get_node_battery_history [(sampleRow "!a" 999000 10).raw] "!a" 7 1000000).Perm
        ([sampleRow "!a" 999000 10].filter (fun r =>
          (r.fields.node_id == "!a") &&
            decide ((1000000 : ℚ) - 7 * 86400 ≤ r.timestamp))) ∧
      List.Sorted rowLE
        (get_node_battery_history [(sampleRow "!a" 999000 10).raw] "!a" 7 1000000) :=
  c2_node_history_keeps_duplicates [(sampleRow "!a" 999000 10).raw]
    [sampleRow "!a" 999000 10] "!a" 7 1000000 rfl

/-- C4: once the global throttle has passed, a metrics-bearing node of the
snapshot gets exactly one new row in the durable log iff
`|uptime_hours − lastPersisted(node_id, default 0)| ≥ 0.01` hours; in
particular a previously unseen node (baseline 0) with `uptime_hours ≥ 0.01`
is always written. -/
theorem c4_save_appends_iff_uptime_delta (st : PState)
    (nd : List (String × Node)) (now : ℚ) (id : String) (n : Node)
    (dm : DeviceMetrics)
    (hth : throttleSkip st.csvLog now = false)
    (hnd : (nd.map Prod.fst).Nodup)
    (hmem : (id, n) ∈ nd)
    (hdm : n.deviceMetrics = some dm) :
    ((save_nodes_data st nd now).state.csvLog.countP
        (fun s => s.fields.node_id == id) =
      st.csvLog.countP (fun s => s.fields.node_id == id) +
        if 1/100 ≤ |dm.uptimeSeconds.getD 0 / 3600 - st.previousUptimes id|
          then 1 else 0) ∧
      (st.previousUptimes id = 0 → 1/100 ≤ dm.uptimeSeconds.getD 0 / 3600 →
        (save_nodes_data st nd now).state.csvLog.countP
            (fun s => s.fields.node_id == id) =
          st.csvLog.countP (fun s => s.fields.node_id == id) + 1) := by
  have hmain : (save_nodes_data st nd now).state.csvLog.countP
      (fun s => s.fields.node_id == id) =
        st.csvLog.countP (fun s => s.fields.node_id == id) +
          if 1/100 ≤ |dm.uptimeSeconds.getD 0 / 3600 - st.previousUptimes id|
            then 1 else 0 := by
    simp only [save_nodes_data, hth, Bool.false_eq_true, if_false]
    rw [List.countP_append, countP_map_raw,
      countP_csvRowsFor st.previousUptimes nd now id n dm hnd hmem hdm]
  refine ⟨hmain, fun h0 hup => ?_⟩
  rw [hmain, h0, sub_zero,
    abs_of_nonneg (le_trans (by norm_num) hup), if_pos hup]

/-- Witness for C4: on an empty log with empty baseline, a first sample for
`"!a"` with uptime 2 h is written exactly once. -/
theorem c4_save_appends_witness :
    ((save_nodes_data emptyState [("!a", nodeUp 7200)] 1000).state.csvLog.countP
        (fun s => s.fields.node_id == "!a") =
      emptyState.csvLog.countP (fun s => s.fields.node_id == "!a") +
        if 1/100 ≤ |(dmUp 7200).uptimeSeconds.getD 0 / 3600 -
            emptyState.previousUptimes "!a"| then 1 else 0) ∧
      (emptyState.previousUptimes "!a" = 0 →
        1/100 ≤ (dmUp 7200).uptimeSeconds.getD 0 / 3600 →
        (save_nodes_data emptyState [("!a", nodeUp 7200)] 1000).state.csvLog.countP
            (fun s => s.fields.node_id == "!a") =
          emptyState.csvLog.countP (fun s => s.fields.node_id == "!a") + 1) :=
  c4_save_appends_iff_uptime_delta emptyState [("!a", nodeUp 7200)] 1000 "!a"
    (nodeUp 7200) (dmUp 7200) rfl (by simp) (List.mem_singleton.mpr rfl) rfl

/-- C8 counterexample: the claim states that after `cleanup_old_data` no row
older than the cutoff remains.  When every stored row is older than
`2 × days_to_keep`, the initial windowed load is empty and the routine
returns without rewriting the file: a row at t = 0 survives a cleanup with
`days_to_keep = 1` at now = 1000000 even though it is far older than the
cutoff. -/
theorem c8_stale_log_left_untrimmed :
    cleanup_old_data [(sampleRow "!a" 0 10).raw] 1 1000000 =
        [(sampleRow "!a" 0 10).raw] ∧
      (sampleRow "!a" 0 10).timestamp < 1000000 - 1 * 86400 := by
  with_unfolding_all decide

/-- C8 amended: provided at least one row lies within the doubled window
`now − 2 × days_to_keep`, `cleanup_old_data` keeps a row iff it is at least
as recent as the cutoff `now − days_to_keep`: every surviving row meets the
cutoff, and every row of the log meeting the cutoff survives.  (When no row
lies within the doubled window the routine leaves the log unchanged.) -/
theorem c8_cleanup_trims_when_recent_data_exists (l : List Row) (k now : ℚ)
    (hk : 0 ≤ k)
    (hne : ∃ r ∈ l, now - k * 2 * 86400 ≤ r.timestamp) :
    (∀ s ∈ cleanup_old_data (l.map Row.raw) k now,
        ∃ r : Row, s = r.raw ∧ now - k * 86400 ≤ r.timestamp) ∧
      ∀ r ∈ l, now - k * 86400 ≤ r.timestamp →
        r.raw ∈ cleanup_old_data (l.map Row.raw) k now := by
  obtain ⟨r0, hr0l, hr0b⟩ := hne
  have hr0f : r0 ∈ l.filter (fun r => decide (now - k * 2 * 86400 ≤ r.timestamp)) :=
    List.mem_filter.mpr ⟨hr0l, decide_eq_true hr0b⟩
  have hr0s : r0 ∈ List.insertionSort rowLE
      (l.filter (fun r => decide (now - k * 2 * 86400 ≤ r.timestamp))) :=
    (List.mem_insertionSort rowLE).mpr hr0f
  have hdf : (List.insertionSort rowLE
      (l.filter (fun r => decide (now - k * 2 * 86400 ≤ r.timestamp)))).isEmpty = false := by
    rcases hq : (List.insertionSort rowLE
        (l.filter (fun r => decide (now - k * 2 * 86400 ≤ r.timestamp)))).isEmpty with _ | _
    · rfl
    · rw [List.isEmpty_iff.mp hq] at hr0s
      cases hr0s
  have hclean : cleanup_old_data (l.map Row.raw) k now =
      ((List.insertionSort rowLE
          (l.filter (fun r => decide (now - k * 2 * 86400 ≤ r.timestamp)))).filter
        (fun r => decide (now - k * 86400 ≤ r.timestamp))).map Row.raw := by
    simp only [cleanup_old_data, get_battery_history_parsed, hdf,
      Bool.false_eq_true, if_false]
  constructor
  · intro s hs
    rw [hclean] at hs
    obtain ⟨r, hrmem, hreq⟩ := List.mem_map.mp hs
    exact ⟨r, hreq.symm, of_decide_eq_true (List.mem_filter.mp hrmem).2⟩
  · intro r hrl hge
    have hb2 : now - k * 2 * 86400 ≤ r.timestamp := by
      have : now - k * 2 * 86400 ≤ now - k * 86400 := by nlinarith
      linarith
    have hrf : r ∈ l.filter (fun s => decide (now - k * 2 * 86400 ≤ s.timestamp)) :=
      List.mem_filter.mpr ⟨hrl, decide_eq_true hb2⟩
    have hrs : r ∈ List.insertionSort rowLE
        (l.filter (fun s => decide (now - k * 2 * 86400 ≤ s.timestamp))) :=
      (List.mem_insertionSort rowLE).mpr hrf
    rw [hclean]
    exact List.mem_map.mpr ⟨r,
      List.mem_filter.mpr ⟨hrs, decide_eq_true hge⟩, rfl⟩

/-- Witness for C8 amended: a row 50000 s old with a 1-day retention at
now = 1000000 is inside the doubled window and at least as recent as the
cutoff, hence survives the cleanup. -/
theorem c8_cleanup_witness :
    (sampleRow "!a" 950000 10).raw ∈
      cleanup_old_data ([sampleRow "!a" 950000 10].map Row.raw) 1 1000000 :=
  (c8_cleanup_trims_when_recent_data_exists [sampleRow "!a" 950000 10] 1 1000000
      (by norm_num)
      ⟨sampleRow "!a" 950000 10, by simp, by norm_num [sampleRow]⟩).2
    (sampleRow "!a" 950000 10) (by simp) (by norm_num [sampleRow])

/-- C10: a node whose metrics block is present but lacks individual fields is
processed with zero defaults (`uptimeSeconds → 0`, `batteryLevel → 0`,
`voltage → 0`, `channelUtilization → 0`) rather than failing; consequently a
metrics-bearing node with no `uptimeSeconds` field and no stored baseline is
never persisted, its delta from the default baseline 0 being 0 < 0.01. -/
theorem c10_missing_uptime_never_persisted (st : PState)
    (nd : List (String × Node)) (now : ℚ) (id : String) (n : Node)
    (dm : DeviceMetrics)
    (hth : throttleSkip st.csvLog now = false)
    (hnd : (nd.map Prod.fst).Nodup)
    (hmem : (id, n) ∈ nd)
    (hdm : n.deviceMetrics = some dm)
    (hup : dm.uptimeSeconds = none)
    (hbase : st.previousUptimes id = 0) :
    (buildFields id n dm).uptime_hours = 0 ∧
      (buildFields id n dm).battery_level = dm.batteryLevel.getD 0 ∧
      (buildFields id n dm).voltage = dm.voltage.getD 0 ∧
      (buildFields id n dm).channel_utilization = dm.channelUtilization.getD 0 ∧
      (save_nodes_data st nd now).state.csvLog.countP
          (fun s => s.fields.node_id == id) =
        st.csvLog.countP (fun s => s.fields.node_id == id) := by
  refine ⟨by simp [buildFields, hup], rfl, rfl, rfl, ?_⟩
  simp only [save_nodes_data, hth, Bool.false_eq_true, if_false]
  rw [List.countP_append, countP_map_raw,
    countP_csvRowsFor st.previousUptimes nd now id n dm hnd hmem hdm,
    hup, hbase]
  norm_num

/-- Witness for C10: a node whose metrics block has no fields at all, on an
empty log with empty baseline, writes no row. -/
theorem c10_missing_uptime_witness :
    (buildFields "!a" nodeNoFields
        { uptimeSeconds := none, batteryLevel := none, voltage := none,
          channelUtilization := none }).uptime_hours = 0 ∧
      (buildFields "!a" nodeNoFields
        { uptimeSeconds := none, batteryLevel := none, voltage := none,
          channelUtilization := none }).battery_level =
        (Option.getD (α := ℤ) none 0) ∧
      (buildFields "!a" nodeNoFields
        { uptimeSeconds := none, batteryLevel := none, voltage := none,
          channelUtilization := none }).voltage =
        (Option.getD (α := ℚ) none 0) ∧
      (buildFields "!a" nodeNoFields
        { uptimeSeconds := none, batteryLevel := none, voltage := none,
          channelUtilization := none }).channel_utilization =
        (Option.getD (α := ℚ) none 0) ∧
      (save_nodes_data emptyState [("!a", nodeNoFields)] 1000).state.csvLog.countP
          (fun s => s.fields.node_id == "!a") =
        emptyState.csvLog.countP (fun s => s.fields.node_id == "!a") :=
  c10_missing_uptime_never_persisted emptyState [("!a", nodeNoFields)] 1000 "!a"
    nodeNoFields _ rfl (by simp) (List.mem_singleton.mpr rfl) rfl rfl rfl

end MeshMonitor
